import Mathlib

/-!
Shallow embedding of the jobs-portal authentication core:
the access-control middleware (both the NextAuth `withAuth` binding in
`src/middleware.ts` and the Clerk `clerkMiddleware` binding in the same file),
the user-credential service (`src/lib/userService.ts`, file-backed variant;
the MongoDB variant has the same duplicate-check-then-insert logic),
the registration route (`src/app/api/auth/register/route.ts`), and the
Clerk `user.created` webhook handler.

External primitives are made explicit parameters: the bcrypt hash is a
function parameter `hashFn` (the source fixes the cost factor at 12 and
delegates comparison to `bcrypt.compare`, which re-hashes the plaintext with
the salt of the stored hash and compares; with the salt fixed this is
`hashFn plain = stored`), fresh `_id` generation is a parameter `newId`,
and `Date.now()` is a parameter `now : Nat`.
-/

/-- Outcome of one middleware invocation: either the request is forwarded to
the page handler (`NextResponse.next()`) or it is short-circuited with a
redirect to a target path (`NextResponse.redirect(new URL(target, req.url))`). -/
inductive MwOutcome where
  | next : MwOutcome
  | redirect (target : String) : MwOutcome
deriving DecidableEq, Repr

/-- JavaScript `pathname.startsWith(p)`, embedded as the test that the
character sequence of `p` is an initial segment of the character sequence
of `s`. -/
def jsStartsWith (s p : String) : Bool :=
  p.data.isPrefixOf s.data

/-- Target of the role-based dashboard redirect; the source computes
`role === 'employer' ? '/dashboard/employer' : '/dashboard/job-seeker'`. -/
def roleDashboardUrl (role : Option String) : String :=
  if role == some "employer" then "/dashboard/employer" else "/dashboard/job-seeker"

/-- The Clerk middleware of `src/middleware.ts`: `userId` and the role read
from `sessionClaims.publicMetadata` come from `await auth()`; the route
matchers `createRouteMatcher(['/dashboard(.*)'])` and
`createRouteMatcher(['/auth(.*)'])` are prefix tests on the pathname. -/
def clerkMiddleware (userId : Option String) (userRole : Option String)
    (pathname : String) : MwOutcome :=
  if userId.isSome && userRole.isNone && !(pathname == "/setup") then
    .redirect "/setup"
  else if jsStartsWith pathname "/auth" && userId.isSome then
    if userRole.isNone then
      .redirect "/setup"
    else
      .redirect (roleDashboardUrl userRole)
  else if jsStartsWith pathname "/dashboard" then
    if userId.isNone then
      .redirect "/auth/signin"
    else if userRole.isNone then
      .redirect "/setup"
    else if jsStartsWith pathname "/dashboard/employer" && !(userRole == some "employer") then
      .redirect "/dashboard/job-seeker"
    else if jsStartsWith pathname "/dashboard/job-seeker" && !(userRole == some "job_seeker") then
      .redirect "/dashboard/employer"
    else if pathname == "/dashboard" then
      .redirect (roleDashboardUrl userRole)
    else
      .next
  else
    .next

/-- The JWT token carried by `req.nextauth` in the NextAuth variant; its
`role` claim is set by the `jwt` callback and may be absent. -/
structure JwtToken where
  role : Option String
deriving DecidableEq, Repr

/-- Reads `token.role` through an optional token. -/
def tokenRole (token : Option JwtToken) : Option String :=
  token.bind (fun t => t.role)

/-- The inner `middleware` function passed to `withAuth` in the NextAuth
variant of `src/middleware.ts`. -/
def nextAuthMiddlewareFn (token : Option JwtToken) (pathname : String) : MwOutcome :=
  if jsStartsWith pathname "/auth/" && token.isNone then
    .next
  else if jsStartsWith pathname "/auth/" && token.isSome then
    .redirect (roleDashboardUrl (tokenRole token))
  else if jsStartsWith pathname "/dashboard" then
    if token.isNone then
      .redirect "/auth/signin"
    else if jsStartsWith pathname "/dashboard/employer" && !(tokenRole token == some "employer") then
      .redirect "/dashboard/job-seeker"
    else if jsStartsWith pathname "/dashboard/job-seeker" && !(tokenRole token == some "job_seeker") then
      .redirect "/dashboard/employer"
    else if pathname == "/dashboard" then
      .redirect (roleDashboardUrl (tokenRole token))
    else
      .next
  else
    .next

/-- The `authorized` callback given to `withAuth`. -/
def nextAuthAuthorized (token : Option JwtToken) (pathname : String) : Bool :=
  if pathname == "/" || jsStartsWith pathname "/jobs" || jsStartsWith pathname "/api/auth" then
    true
  else if jsStartsWith pathname "/auth/" then
    true
  else if jsStartsWith pathname "/dashboard" then
    token.isSome
  else
    true

/-- The composite NextAuth middleware: `withAuth` runs the inner middleware
only when `authorized` returns true, and otherwise redirects to the
configured sign-in page `/auth/signin`. -/
def nextAuthMiddleware (token : Option JwtToken) (pathname : String) : MwOutcome :=
  if nextAuthAuthorized token pathname then
    nextAuthMiddlewareFn token pathname
  else
    .redirect "/auth/signin"

/-- Path reached after one evaluation of the Clerk middleware: a redirect
moves the browser to the target, a pass-through leaves the path unchanged. -/
def clerkPathStep (userId userRole : Option String) (pathname : String) : String :=
  match clerkMiddleware userId userRole pathname with
  | .next => pathname
  | .redirect target => target

/-- Registration input `{name, email, password, role}` as consumed by
`UserService.createUser`; the `role` field is a plain string because the
TypeScript union type exists only at compile time. -/
structure UserRegistration where
  name : String
  email : String
  password : String
  role : String
deriving DecidableEq, Repr

/-- A persisted user document of the `users` store; `Date` timestamps are
modelled as `Nat`. -/
structure StoredUser where
  _id : String
  name : String
  email : String
  password : String
  role : String
  createdAt : Nat
  updatedAt : Nat
deriving DecidableEq, Repr

/-- The record `createUser` returns: the new user document with the
`password` field stripped. -/
structure PublicUser where
  _id : String
  name : String
  email : String
  role : String
  createdAt : Nat
  updatedAt : Nat
deriving DecidableEq, Repr

/-- `UserService.createUser`: looks the email up in the store, throws
`'User already exists with this email'` on a hit, otherwise hashes the
password, appends the new document and returns it sanitized.  The pair
returned here is (store after the call, result). -/
def createUser (hashFn : String → String) (newId : String) (now : Nat)
    (users : List StoredUser) (userData : UserRegistration) :
    List StoredUser × Except String PublicUser :=
  match users.find? (fun user => user.email == userData.email) with
  | some _ => (users, Except.error "User already exists with this email")
  | none =>
    let hashedPassword := hashFn userData.password
    let newUser : StoredUser :=
      { _id := newId, name := userData.name, email := userData.email,
        password := hashedPassword, role := userData.role,
        createdAt := now, updatedAt := now }
    (users ++ [newUser],
     Except.ok { _id := newId, name := userData.name, email := userData.email,
                 role := userData.role, createdAt := now, updatedAt := now })

/-- `UserService.findUserByEmail`: first store entry with the given email,
returned with its password hash (this variant does not strip it). -/
def findUserByEmail (users : List StoredUser) (email : String) : Option StoredUser :=
  users.find? (fun user => user.email == email)

/-- Modelled from the spec: `UserService.verifyPassword` delegates to
`bcrypt.compare`, an external primitive that re-hashes the plaintext with the
salt taken from the stored hash and compares the outcome with the stored
hash; with the salt fixed inside `hashFn` this is equality of `hashFn plain`
with the stored hash. -/
def verifyPassword (hashFn : String → String) (plainPassword hashedPassword : String) : Bool :=
  hashFn plainPassword == hashedPassword

/-- Character class `[^\s@]` of the registration email regex. -/
def emailAtomChar (c : Char) : Bool :=
  !c.isWhitespace && !(c == '@')

/-- Domain part of the email regex, `[^\s@]+\.[^\s@]+`: all characters in the
class, with a dot that has at least one character before it and one after
it. -/
def emailDomainOk (domain : List Char) : Bool :=
  domain.all emailAtomChar &&
    (List.range domain.length).any
      (fun i => decide (1 ≤ i) && decide (i + 1 < domain.length) && (domain.getD i ' ' == '.'))

/-- The registration email test, regex `^[^\s@]+@[^\s@]+\.[^\s@]+$`: exactly
one `@`, a nonempty local part of characters in `[^\s@]`, and a domain part
matching `[^\s@]+\.[^\s@]+`. -/
def emailRegexTest (s : String) : Bool :=
  match s.data.splitOn '@' with
  | [localPart, domain] =>
    !localPart.isEmpty && localPart.all emailAtomChar && emailDomainOk domain
  | _ => false

/-- The JSON body of `POST /api/auth/register`; a missing field is `none`. -/
structure RegBody where
  name : Option String
  email : Option String
  password : Option String
  role : Option String
deriving DecidableEq, Repr

/-- The user object embedded in the 201 response of the registration route:
`{id, name, email, role}` only — it has no password field. -/
structure ApiUser where
  id : String
  name : String
  email : String
  role : String
deriving DecidableEq, Repr

/-- Responses the registration route can produce. -/
inductive RegResponse where
  | badRequest (msg : String) : RegResponse
  | created (user : ApiUser) : RegResponse
  | conflict : RegResponse
  | serverError : RegResponse
deriving DecidableEq, Repr

/-- HTTP status of each registration response. -/
def regStatus : RegResponse → Nat
  | .badRequest _ => 400
  | .created _ => 201
  | .conflict => 409
  | .serverError => 500

/-- JavaScript truthiness of an optional string field: `!body.name` is true
exactly when the field is missing or the empty string. -/
def truthyField : Option String → Bool
  | none => false
  | some s => !(s == "")

/-- The `POST` handler of `src/app/api/auth/register/route.ts`.  `body = none`
models `request.json()` throwing (caught by the catch-all, a 500);
`saveOk = false` models the store write inside `createUser` throwing, in
which case no document is persisted and the catch-all answers 500. -/
def registerPOST (hashFn : String → String) (newId : String) (now : Nat)
    (users : List StoredUser) (body : Option RegBody) (saveOk : Bool) :
    List StoredUser × RegResponse :=
  match body with
  | none => (users, .serverError)
  | some b =>
    if !(truthyField b.name && truthyField b.email && truthyField b.password &&
          truthyField b.role) then
      (users, .badRequest "All fields are required")
    else
      let bodyName := b.name.getD ""
      let bodyEmail := b.email.getD ""
      let bodyPassword := b.password.getD ""
      let bodyRole := b.role.getD ""
      if !(bodyRole == "job_seeker" || bodyRole == "employer") then
        (users, .badRequest "Invalid role. Must be either job_seeker or employer")
      else if !emailRegexTest bodyEmail then
        (users, .badRequest "Invalid email format")
      else if bodyPassword.length < 6 then
        (users, .badRequest "Password must be at least 6 characters long")
      else
        match createUser hashFn newId now users
            ⟨bodyName, bodyEmail, bodyPassword, bodyRole⟩ with
        | (_, Except.error msg) =>
          if msg == "User already exists with this email" then
            (users, .conflict)
          else
            (users, .serverError)
        | (users2, Except.ok user) =>
          if saveOk then
            (users2, .created { id := user._id, name := user.name,
                                email := user.email, role := user.role })
          else
            (users, .serverError)

/-- A verified identity-provider webhook event: its `type` and the id found
in `evt.data`. -/
structure WebhookEvent where
  type : String
  dataId : String
deriving DecidableEq, Repr

/-- Responses of the webhook route: 400, 500, or the 200 success message. -/
inductive WebhookResponse where
  | badRequest : WebhookResponse
  | serverError : WebhookResponse
  | processed : WebhookResponse
deriving DecidableEq, Repr

/-- The Clerk webhook `POST` handler.  `hasSvixHeaders` is whether all three
svix headers are present; `verified` is the outcome of signature
verification (`none` models `wh.verify` throwing); `updateOk` is whether the
provider accepts the `updateUserMetadata` call.  The second component lists
the metadata writes performed, as pairs (identity id, role written). -/
def webhookPOST (hasSvixHeaders : Bool) (verified : Option WebhookEvent)
    (updateOk : Bool) : WebhookResponse × List (String × String) :=
  if !hasSvixHeaders then
    (.badRequest, [])
  else
    match verified with
    | none => (.badRequest, [])
    | some evt =>
      if evt.type == "user.created" then
        if updateOk then
          (.processed, [(evt.dataId, "job_seeker")])
        else
          (.serverError, [])
      else
        (.processed, [])

theorem jsStartsWith_iff {s p : String} : jsStartsWith s p = true ↔ p.data <+: s.data := by
  simp [jsStartsWith, List.isPrefixOf_iff_prefix]

theorem jsStartsWith_mono {s p q : String} (hpq : q.data.isPrefixOf p.data = true)
    (h : jsStartsWith s p = true) : jsStartsWith s q = true := by
  rw [jsStartsWith_iff] at h ⊢
  rw [ List.isPrefixOf_iff_prefix] at hpq
  exact hpq.trans h

theorem jsStartsWith_false_mono {s p q : String} (hpq : q.data.isPrefixOf p.data = true)
    (h : jsStartsWith s q = false) : jsStartsWith s p = false := by
  by_contra hx
  rw [Bool.not_eq_false] at hx
  rw [jsStartsWith_mono hpq hx] at h
  simp at h

theorem jsStartsWith_incomp {s p q : String} (h : jsStartsWith s p = true)
    (hq : q.data.isPrefixOf p.data = false) (hp : p.data.isPrefixOf q.data = false) :
    jsStartsWith s q = false := by
  by_contra hx
  rw [Bool.not_eq_false, jsStartsWith_iff] at hx
  rw [jsStartsWith_iff] at h
  rcases List.prefix_or_prefix_of_prefix h hx with h1 | h1
  · rw [List.isPrefixOf_iff_prefix.mpr h1] at hp
    simp at hp
  · rw [List.isPrefixOf_iff_prefix.mpr h1] at hq
    simp at hq

theorem jsStartsWith_ne_of {s p t : String} (h : jsStartsWith s p = true)
    (ht : jsStartsWith t p = false) : s ≠ t := by
  intro he
  subst he
  rw [h] at ht
  simp at ht

/-- C1: for an authenticated user with a set role, a request under
`/dashboard/employer` with a non-employer role is redirected to
`/dashboard/job-seeker`, and a request under `/dashboard/job-seeker` with a
non-job-seeker role is redirected to `/dashboard/employer`; this holds in
both middleware bindings, so the request never passes through. -/
theorem mw_role_mismatch_redirect (uid r path : String) :
    (jsStartsWith path "/dashboard/employer" = true → r ≠ "employer" →
      clerkMiddleware (some uid) (some r) path = .redirect "/dashboard/job-seeker" ∧
      nextAuthMiddleware (some ⟨some r⟩) path = .redirect "/dashboard/job-seeker") ∧
    (jsStartsWith path "/dashboard/job-seeker" = true → r ≠ "job_seeker" →
      clerkMiddleware (some uid) (some r) path = .redirect "/dashboard/employer" ∧
      nextAuthMiddleware (some ⟨some r⟩) path = .redirect "/dashboard/employer") := by
  constructor
  · intro hpe hrole
    have hdash : jsStartsWith path "/dashboard" = true := jsStartsWith_mono (by decide) hpe
    have hauth : jsStartsWith path "/auth" = false := jsStartsWith_incomp hdash (by decide) (by decide)
    have hauthS : jsStartsWith path "/auth/" = false := jsStartsWith_incomp hdash (by decide) (by decide)
    have hjobs : jsStartsWith path "/jobs" = false := jsStartsWith_incomp hdash (by decide) (by decide)
    have hapi : jsStartsWith path "/api/auth" = false := jsStartsWith_incomp hdash (by decide) (by decide)
    have hsetupb : (path == "/setup") = false := by
      simpa using jsStartsWith_ne_of hdash (by decide)
    have hrootb : (path == "/") = false := by
      simpa using jsStartsWith_ne_of hdash (by decide)
    have hne : ((some r : Option String) == some "employer") = false := by
      simp [hrole]
    constructor
    · simp [clerkMiddleware, hdash, hauth, hpe, hne, hsetupb]
    · simp [nextAuthMiddleware, nextAuthAuthorized, nextAuthMiddlewareFn, tokenRole,
            hrootb, hjobs, hapi, hauthS, hdash, hpe, hne]
  · intro hpj hrole
    have hdash : jsStartsWith path "/dashboard" = true := jsStartsWith_mono (by decide) hpj
    have hauth : jsStartsWith path "/auth" = false := jsStartsWith_incomp hdash (by decide) (by decide)
    have hauthS : jsStartsWith path "/auth/" = false := jsStartsWith_incomp hdash (by decide) (by decide)
    have hjobs : jsStartsWith path "/jobs" = false := jsStartsWith_incomp hdash (by decide) (by decide)
    have hapi : jsStartsWith path "/api/auth" = false := jsStartsWith_incomp hdash (by decide) (by decide)
    have hemp : jsStartsWith path "/dashboard/employer" = false :=
      jsStartsWith_incomp hpj (by decide) (by decide)
    have hsetupb : (path == "/setup") = false := by
      simpa using jsStartsWith_ne_of hdash (by decide)
    have hrootb : (path == "/") = false := by
      simpa using jsStartsWith_ne_of hdash (by decide)
    have hne : ((some r : Option String) == some "job_seeker") = false := by
      simp [hrole]
    constructor
    · simp [clerkMiddleware, hdash, hauth, hpj, hemp, hne, hsetupb]
    · simp [nextAuthMiddleware, nextAuthAuthorized, nextAuthMiddlewareFn, tokenRole,
            hrootb, hjobs, hapi, hauthS, hdash, hpj, hemp, hne]

theorem mw_role_mismatch_redirect_witness :
    clerkMiddleware (some "u1") (some "job_seeker") "/dashboard/employer/jobs" =
      .redirect "/dashboard/job-seeker" ∧
    nextAuthMiddleware (some ⟨some "job_seeker"⟩) "/dashboard/employer/jobs" =
      .redirect "/dashboard/job-seeker" :=
  (mw_role_mismatch_redirect "u1" "job_seeker" "/dashboard/employer/jobs").1
    (by decide) (by decide)

/-- C2: an unauthenticated request for `/dashboard` or any path under it is
redirected to the sign-in page by both middleware bindings. -/
theorem mw_anonymous_dashboard_to_signin (path : String)
    (hclass : path = "/dashboard" ∨ jsStartsWith path "/dashboard/" = true) :
    clerkMiddleware none none path = .redirect "/auth/signin" ∧
    nextAuthMiddleware none path = .redirect "/auth/signin" := by
  have hdash : jsStartsWith path "/dashboard" = true := by
    rcases hclass with rfl | h
    · decide
    · exact jsStartsWith_mono (by decide) h
  have hauthS : jsStartsWith path "/auth/" = false := jsStartsWith_incomp hdash (by decide) (by decide)
  have hjobs : jsStartsWith path "/jobs" = false := jsStartsWith_incomp hdash (by decide) (by decide)
  have hapi : jsStartsWith path "/api/auth" = false := jsStartsWith_incomp hdash (by decide) (by decide)
  have hrootb : (path == "/") = false := by
    simpa using jsStartsWith_ne_of hdash (by decide)
  constructor
  · simp [clerkMiddleware, hdash]
  · simp [nextAuthMiddleware, nextAuthAuthorized, hrootb, hjobs, hapi, hauthS, hdash]

theorem mw_anonymous_dashboard_to_signin_witness :
    clerkMiddleware none none "/dashboard/employer" = .redirect "/auth/signin" ∧
    nextAuthMiddleware none "/dashboard/employer" = .redirect "/auth/signin" :=
  mw_anonymous_dashboard_to_signin "/dashboard/employer" (Or.inr (by decide))

/-- C3: an authenticated identity without a role passes through on `/setup`
and is redirected to `/setup` on every other protected or auth path; since
the missing-role check fires first, it takes precedence over the
role-segment-mismatch redirects. -/
theorem mw_missing_role_setup (uid path : String) :
    clerkMiddleware (some uid) none "/setup" = .next ∧
    ((jsStartsWith path "/dashboard" = true ∨ jsStartsWith path "/auth" = true) →
      clerkMiddleware (some uid) none path = .redirect "/setup") := by
  constructor
  · rfl
  · intro hclass
    have hsetupb : (path == "/setup") = false := by
      rcases hclass with h | h
      · simpa using jsStartsWith_ne_of h (by decide)
      · simpa using jsStartsWith_ne_of h (by decide)
    simp [clerkMiddleware, hsetupb]

theorem mw_missing_role_setup_witness :
    clerkMiddleware (some "u2") none "/setup" = .next ∧
    clerkMiddleware (some "u2") none "/dashboard/employer/jobs" = .redirect "/setup" :=
  ⟨(mw_missing_role_setup "u2" "/x").1,
   (mw_missing_role_setup "u2" "/dashboard/employer/jobs").2 (Or.inl (by decide))⟩

/-- C4: an authenticated user with a set role who requests a path strictly
under `/auth` or the bare `/dashboard` is redirected to the role-specific
dashboard root, in both middleware bindings. -/
theorem mw_authed_to_role_dashboard (uid r path : String)
    (hrole : r = "employer" ∨ r = "job_seeker")
    (hclass : jsStartsWith path "/auth/" = true ∨ path = "/dashboard") :
    clerkMiddleware (some uid) (some r) path =
      .redirect (if r = "employer" then "/dashboard/employer" else "/dashboard/job-seeker") ∧
    nextAuthMiddleware (some ⟨some r⟩) path =
      .redirect (if r = "employer" then "/dashboard/employer" else "/dashboard/job-seeker") := by
  have hurl : roleDashboardUrl (some r) =
      if r = "employer" then "/dashboard/employer" else "/dashboard/job-seeker" := by
    simp [roleDashboardUrl]
  rcases hclass with h | rfl
  · have hauth : jsStartsWith path "/auth" = true := jsStartsWith_mono (by decide) h
    have hjobs : jsStartsWith path "/jobs" = false := jsStartsWith_incomp hauth (by decide) (by decide)
    have hapi : jsStartsWith path "/api/auth" = false := jsStartsWith_incomp hauth (by decide) (by decide)
    have hsetupb : (path == "/setup") = false := by
      simpa using jsStartsWith_ne_of hauth (by decide)
    have hrootb : (path == "/") = false := by
      simpa using jsStartsWith_ne_of hauth (by decide)
    constructor
    · simp [clerkMiddleware, hauth, hurl, hsetupb]
    · simp [nextAuthMiddleware, nextAuthAuthorized, nextAuthMiddlewareFn, tokenRole,
            hrootb, hjobs, hapi, h, hurl]
  · have h1 : jsStartsWith "/dashboard" "/auth" = false := by decide
    have h1S : jsStartsWith "/dashboard" "/auth/" = false := by decide
    have h2 : jsStartsWith "/dashboard" "/dashboard" = true := by decide
    have h3 : jsStartsWith "/dashboard" "/dashboard/employer" = false := by decide
    have h4 : jsStartsWith "/dashboard" "/dashboard/job-seeker" = false := by decide
    have h5 : (("/dashboard" : String) == "/setup") = false := by decide
    have h6 : (("/dashboard" : String) == "/dashboard") = true := by decide
    have h7 : (("/dashboard" : String) == "/") = false := by decide
    have h8 : jsStartsWith "/dashboard" "/jobs" = false := by decide
    have h9 : jsStartsWith "/dashboard" "/api/auth" = false := by decide
    constructor
    · simp [clerkMiddleware, h1, h2, h3, h4, h5, h6, hurl]
    · simp [nextAuthMiddleware, nextAuthAuthorized, nextAuthMiddlewareFn, tokenRole,
            h1S, h2, h3, h4, h6, h7, h8, h9, hurl]

theorem mw_authed_to_role_dashboard_witness :
    clerkMiddleware (some "u4") (some "employer") "/auth/signin" =
      .redirect "/dashboard/employer" ∧
    nextAuthMiddleware (some ⟨some "employer"⟩) "/auth/signin" =
      .redirect "/dashboard/employer" := by
  have h := mw_authed_to_role_dashboard "u4" "employer" "/auth/signin"
    (Or.inl rfl) (Or.inl (by decide))
  simpa using h

/-- C9: an authenticated user whose role matches the requested dashboard
segment, or who requests a public path (neither auth nor dashboard), passes
through in both bindings; and since the decision is a pure function of the
input, iterating the path step any number of times keeps the request on the
same path. -/
theorem mw_pass_through_idempotent (uid r path : String)
    (hclass : (r = "employer" ∧ jsStartsWith path "/dashboard/employer" = true) ∨
              (r = "job_seeker" ∧ jsStartsWith path "/dashboard/job-seeker" = true) ∨
              (jsStartsWith path "/auth" = false ∧ jsStartsWith path "/dashboard" = false)) :
    clerkMiddleware (some uid) (some r) path = .next ∧
    nextAuthMiddleware (some ⟨some r⟩) path = .next ∧
    ∀ n : Nat, (fun q => clerkPathStep (some uid) (some r) q)^[n] path = path := by
  have hmain : clerkMiddleware (some uid) (some r) path = .next ∧
      nextAuthMiddleware (some ⟨some r⟩) path = .next := by
    rcases hclass with ⟨rfl, hpe⟩ | ⟨rfl, hpj⟩ | ⟨hauth, hdash⟩
    · have hdash : jsStartsWith path "/dashboard" = true := jsStartsWith_mono (by decide) hpe
      have hauth : jsStartsWith path "/auth" = false := jsStartsWith_incomp hdash (by decide) (by decide)
      have hauthS : jsStartsWith path "/auth/" = false := jsStartsWith_incomp hdash (by decide) (by decide)
      have hjobs : jsStartsWith path "/jobs" = false := jsStartsWith_incomp hdash (by decide) (by decide)
      have hapi : jsStartsWith path "/api/auth" = false := jsStartsWith_incomp hdash (by decide) (by decide)
      have hsj : jsStartsWith path "/dashboard/job-seeker" = false :=
        jsStartsWith_incomp hpe (by decide) (by decide)
      have hsetupb : (path == "/setup") = false := by
        simpa using jsStartsWith_ne_of hdash (by decide)
      have hrootb : (path == "/") = false := by
        simpa using jsStartsWith_ne_of hdash (by decide)
      have hbareb : (path == "/dashboard") = false := by
        simpa using jsStartsWith_ne_of hpe (by decide)
      constructor
      · simp [clerkMiddleware, hdash, hauth, hpe, hsj, hsetupb, hbareb]
      · simp [nextAuthMiddleware, nextAuthAuthorized, nextAuthMiddlewareFn, tokenRole,
              hrootb, hjobs, hapi, hauthS, hdash, hpe, hsj, hbareb]
    · have hdash : jsStartsWith path "/dashboard" = true := jsStartsWith_mono (by decide) hpj
      have hauth : jsStartsWith path "/auth" = false := jsStartsWith_incomp hdash (by decide) (by decide)
      have hauthS : jsStartsWith path "/auth/" = false := jsStartsWith_incomp hdash (by decide) (by decide)
      have hjobs : jsStartsWith path "/jobs" = false := jsStartsWith_incomp hdash (by decide) (by decide)
      have hapi : jsStartsWith path "/api/auth" = false := jsStartsWith_incomp hdash (by decide) (by decide)
      have hse : jsStartsWith path "/dashboard/employer" = false :=
        jsStartsWith_incomp hpj (by decide) (by decide)
      have hsetupb : (path == "/setup") = false := by
        simpa using jsStartsWith_ne_of hdash (by decide)
      have hrootb : (path == "/") = false := by
        simpa using jsStartsWith_ne_of hdash (by decide)
      have hbareb : (path == "/dashboard") = false := by
        simpa using jsStartsWith_ne_of hpj (by decide)
      constructor
      · simp [clerkMiddleware, hdash, hauth, hpj, hse, hsetupb, hbareb]
      · simp [nextAuthMiddleware, nextAuthAuthorized, nextAuthMiddlewareFn, tokenRole,
              hrootb, hjobs, hapi, hauthS, hdash, hpj, hse, hbareb]
    · have hauthS : jsStartsWith path "/auth/" = false :=
        jsStartsWith_false_mono (by decide) hauth
      constructor
      · simp [clerkMiddleware, hauth, hdash]
      · simp [nextAuthMiddleware, nextAuthAuthorized, nextAuthMiddlewareFn, hauthS, hdash]
  have hstep : clerkPathStep (some uid) (some r) path = path := by
    simp [clerkPathStep, hmain.1]
  exact ⟨hmain.1, hmain.2, fun n => Function.iterate_fixed hstep n⟩

theorem mw_pass_through_idempotent_witness :
    clerkMiddleware (some "u3") (some "job_seeker") "/dashboard/job-seeker" = .next ∧
    nextAuthMiddleware (some ⟨some "job_seeker"⟩) "/dashboard/job-seeker" = .next ∧
    (fun q => clerkPathStep (some "u3") (some "job_seeker") q)^[3] "/dashboard/job-seeker" =
      "/dashboard/job-seeker" := by
  have h := mw_pass_through_idempotent "u3" "job_seeker" "/dashboard/job-seeker"
    (Or.inr (Or.inl ⟨rfl, by decide⟩))
  exact ⟨h.1, h.2.1, h.2.2 3⟩

/-- C6: `createUser` fails with the duplicate-user error exactly when a
record with the same email is already in the store, and on that failure the
store is returned unchanged. -/
theorem createUser_duplicate_iff (hashFn : String → String) (newId : String) (now : Nat)
    (users : List StoredUser) (u : UserRegistration) :
    ((createUser hashFn newId now users u).2 =
        Except.error "User already exists with this email" ↔
      ∃ x ∈ users, x.email = u.email) ∧
    ((∃ x ∈ users, x.email = u.email) →
      (createUser hashFn newId now users u).1 = users) := by
  unfold createUser
  cases hfind : users.find? (fun user => user.email == u.email) with
  | none =>
    rw [List.find?_eq_none] at hfind
    refine ⟨⟨fun h => by simp at h, fun hex => ?_⟩, fun hex => ?_⟩ <;>
    · obtain ⟨x, hx, he⟩ := hex
      have hcontra := hfind x hx
      simp [he] at hcontra
  | some w =>
    have hmem := List.mem_of_find?_eq_some hfind
    have hw : w.email = u.email := by simpa using List.find?_some hfind
    exact ⟨⟨fun _ => ⟨w, hmem, hw⟩, fun _ => rfl⟩, fun _ => rfl⟩

theorem createUser_duplicate_iff_witness :
    (createUser (fun s => s) "i2" 0 [⟨"j1", "Mia", "mia@example.com", "h", "employer", 0, 0⟩]
        ⟨"Mia2", "mia@example.com", "secret1", "job_seeker"⟩).2 =
      Except.error "User already exists with this email" ∧
    (createUser (fun s => s) "i2" 0 [⟨"j1", "Mia", "mia@example.com", "h", "employer", 0, 0⟩]
        ⟨"Mia2", "mia@example.com", "secret1", "job_seeker"⟩).1 =
      [⟨"j1", "Mia", "mia@example.com", "h", "employer", 0, 0⟩] := by
  have h := createUser_duplicate_iff (fun s => s) "i2" 0
    [⟨"j1", "Mia", "mia@example.com", "h", "employer", 0, 0⟩]
    ⟨"Mia2", "mia@example.com", "secret1", "job_seeker"⟩
  exact ⟨h.1.mpr ⟨_, List.mem_singleton_self _, rfl⟩, h.2 ⟨_, List.mem_singleton_self _, rfl⟩⟩

/-- C7: after a successful `createUser` with email `E` and password `P`,
`findUserByEmail E` returns the new record (whose email is `E`), verifying
`P` against the stored hash succeeds, and verifying any other string fails,
given that the hash primitive is collision-free (injective). -/
theorem createUser_verify_roundtrip (hashFn : String → String)
    (hinj : Function.Injective hashFn) (newId : String) (now : Nat)
    (users : List StoredUser) (u : UserRegistration)
    (hnew : ∀ x ∈ users, x.email ≠ u.email) :
    findUserByEmail (createUser hashFn newId now users u).1 u.email =
      some { _id := newId, name := u.name, email := u.email,
             password := hashFn u.password, role := u.role,
             createdAt := now, updatedAt := now } ∧
    verifyPassword hashFn u.password (hashFn u.password) = true ∧
    ∀ p2, p2 ≠ u.password → verifyPassword hashFn p2 (hashFn u.password) = false := by
  have hfind : users.find? (fun user => user.email == u.email) = none :=
    List.find?_eq_none.mpr (fun x hx => by simp [hnew x hx])
  refine ⟨?_, ?_, ?_⟩
  · unfold createUser
    rw [hfind]
    unfold findUserByEmail
    rw [List.find?_append, hfind]
    simp [List.find?]
  · simp [verifyPassword]
  · intro p2 hp2
    simp only [verifyPassword, beq_eq_false_iff_ne, ne_eq]
    exact fun h => hp2 (hinj h)

theorem createUser_verify_roundtrip_witness :
    findUserByEmail (createUser (fun s => s) "i1" 0 []
        ⟨"Alice", "alice@example.com", "secret1", "job_seeker"⟩).1 "alice@example.com" =
      some ⟨"i1", "Alice", "alice@example.com", "secret1", "job_seeker", 0, 0⟩ ∧
    verifyPassword (fun s => s) "secret1" "secret1" = true ∧
    verifyPassword (fun s => s) "Secret1" "secret1" = false ∧
    verifyPassword (fun s => s) "secret" "secret1" = false := by
  have h := createUser_verify_roundtrip (fun s => s) (fun _ _ hab => hab) "i1" 0 []
    ⟨"Alice", "alice@example.com", "secret1", "job_seeker"⟩ (by simp)
  exact ⟨h.1, h.2.1, h.2.2 "Secret1" (by decide), h.2.2 "secret" (by decide)⟩

/-- C8 counterexample: `createUser` performs no role validation at the
service boundary; it accepts the role `"admin"` (outside the closed enum)
and persists a record with that role. -/
theorem createUser_accepts_invalid_role :
    (createUser (fun s => s) "i9" 0 [] ⟨"Eve", "eve@example.com", "secret1", "admin"⟩).2 =
      Except.ok ⟨"i9", "Eve", "eve@example.com", "admin", 0, 0⟩ ∧
    (createUser (fun s => s) "i9" 0 [] ⟨"Eve", "eve@example.com", "secret1", "admin"⟩).1 =
      [⟨"i9", "Eve", "eve@example.com", "secret1", "admin", 0, 0⟩] ∧
    "admin" ≠ "job_seeker" ∧ "admin" ≠ "employer" :=
  ⟨rfl, rfl, by decide, by decide⟩

/-- Records added by `createUser` carry exactly the role of its input. -/
theorem createUser_mem_store (hashFn : String → String) (newId : String) (now : Nat)
    (users : List StoredUser) (userData : UserRegistration) :
    ∀ x ∈ (createUser hashFn newId now users userData).1,
      x ∈ users ∨ x.role = userData.role := by
  intro x hx
  unfold createUser at hx
  split at hx
  · exact Or.inl hx
  · rcases List.mem_append.mp hx with h | h
    · exact Or.inl h
    · rcases List.mem_singleton.mp h with rfl
      exact Or.inr rfl

/-- C10: a verified webhook event of type `user.created` makes the handler
write the default role `job_seeker` into the identity's public metadata. -/
theorem webhook_user_created_default_role (evt : WebhookEvent)
    (htype : evt.type = "user.created") :
    webhookPOST true (some evt) true =
      (WebhookResponse.processed, [(evt.dataId, "job_seeker")]) := by
  simp [webhookPOST, htype]

theorem webhook_user_created_default_role_witness :
    webhookPOST true (some ⟨"user.created", "usr_1"⟩) true =
      (WebhookResponse.processed, [("usr_1", "job_seeker")]) :=
  webhook_user_created_default_role ⟨"user.created", "usr_1"⟩ rfl

/-- C8 amended: every record persisted through the registration route has a
role inside the closed enum, because the HTTP handler validates the role
before calling `createUser`; `createUser` itself performs no role check. -/
theorem registerPOST_role_invariant (hashFn : String → String) (newId : String) (now : Nat)
    (users : List StoredUser) (body : Option RegBody) (saveOk : Bool)
    (hinv : ∀ x ∈ users, x.role = "job_seeker" ∨ x.role = "employer") :
    ∀ x ∈ (registerPOST hashFn newId now users body saveOk).1,
      x.role = "job_seeker" ∨ x.role = "employer" := by
  intro x hx
  cases body with
  | none => exact hinv x hx
  | some b =>
    simp only [registerPOST] at hx
    split at hx
    · exact hinv x hx
    · split at hx
      · exact hinv x hx
      · rename_i hfields hrole
        split at hx
        · exact hinv x hx
        · split at hx
          · exact hinv x hx
          · split at hx
            · split at hx
              · exact hinv x hx
              · exact hinv x hx
            · rename_i users2 user heq
              split at hx
              · have hx2 : x ∈ (createUser hashFn newId now users
                    ⟨b.name.getD "", b.email.getD "", b.password.getD "", b.role.getD ""⟩).1 := by
                  rw [heq]
                  exact hx
                rcases createUser_mem_store hashFn newId now users
                    ⟨b.name.getD "", b.email.getD "", b.password.getD "", b.role.getD ""⟩ x hx2 with
                  hmem | hrx
                · exact hinv x hmem
                · rw [hrx]
                  have hor := (by simpa using hrole :
                    ¬b.role.getD "" = "job_seeker" → b.role.getD "" = "employer")
                  by_cases hjs : b.role.getD "" = "job_seeker"
                  · exact Or.inl hjs
                  · exact Or.inr (hor hjs)
              · exact hinv x hx

theorem registerPOST_role_invariant_witness :
    ((registerPOST (fun s => s) "i5" 0 []
        (some ⟨some "Bob", some "bob@example.io", some "secret1", some "employer"⟩) true).1.all
      (fun x => x.role == "job_seeker" || x.role == "employer")) = true := by
  rw [List.all_eq_true]
  intro x hx
  rcases registerPOST_role_invariant (fun s => s) "i5" 0 []
      (some ⟨some "Bob", some "bob@example.io", some "secret1", some "employer"⟩) true
      (by simp) x hx with h | h <;> simp [h]

/-- C5: the registration route answers 400 to a body with a missing field,
an out-of-enum role, a malformed email, or a password of length at most 5;
it accepts a fully valid body with a password of length exactly 6,
answering 201 with the sanitized user object (`ApiUser` has no password
field); a duplicate email yields 409; a parse or storage fault yields 500;
and every possible outcome has status 400, 409, 201 or 500. -/
theorem registerPOST_status_spec :
    (∀ (hashFn : String → String) (newId : String) (now : Nat) (users : List StoredUser)
        (saveOk : Bool) (b : RegBody),
      (b.name = none ∨ b.email = none ∨ b.password = none ∨ b.role = none) →
      regStatus (registerPOST hashFn newId now users (some b) saveOk).2 = 400) ∧
    (∀ (hashFn : String → String) (newId : String) (now : Nat) (users : List StoredUser)
        (saveOk : Bool) (b : RegBody) (r : String),
      b.role = some r → r ≠ "job_seeker" → r ≠ "employer" →
      regStatus (registerPOST hashFn newId now users (some b) saveOk).2 = 400) ∧
    (∀ (hashFn : String → String) (newId : String) (now : Nat) (users : List StoredUser)
        (saveOk : Bool) (b : RegBody) (e : String),
      b.email = some e → emailRegexTest e = false →
      regStatus (registerPOST hashFn newId now users (some b) saveOk).2 = 400) ∧
    (∀ (hashFn : String → String) (newId : String) (now : Nat) (users : List StoredUser)
        (saveOk : Bool) (b : RegBody) (p : String),
      b.password = some p → p.length ≤ 5 →
      regStatus (registerPOST hashFn newId now users (some b) saveOk).2 = 400) ∧
    (∀ (hashFn : String → String) (newId : String) (now : Nat) (users : List StoredUser)
        (n e p r : String),
      n ≠ "" → emailRegexTest e = true → (r = "job_seeker" ∨ r = "employer") →
      p.length = 6 → (∀ x ∈ users, x.email ≠ e) →
      (registerPOST hashFn newId now users (some ⟨some n, some e, some p, some r⟩) true).2 =
        RegResponse.created ⟨newId, n, e, r⟩) ∧
    (∀ (hashFn : String → String) (newId : String) (now : Nat) (users : List StoredUser)
        (saveOk : Bool) (n e p r : String),
      n ≠ "" → emailRegexTest e = true → (r = "job_seeker" ∨ r = "employer") →
      6 ≤ p.length → (∃ x ∈ users, x.email = e) →
      (registerPOST hashFn newId now users (some ⟨some n, some e, some p, some r⟩) saveOk).2 =
        RegResponse.conflict) ∧
    (∀ (hashFn : String → String) (newId : String) (now : Nat) (users : List StoredUser)
        (body : Option RegBody) (saveOk : Bool),
      regStatus (registerPOST hashFn newId now users body saveOk).2 ∈
        ([400, 409, 201, 500] : List Nat)) := by
  refine ⟨?_, ?_, ?_, ?_, ?_, ?_, ?_⟩
  · intro hashFn newId now users saveOk b hmiss
    rcases hmiss with h | h | h | h <;>
      simp [registerPOST, h, truthyField, regStatus]
  · intro hashFn newId now users saveOk b r hr hne1 hne2
    by_cases hc : (truthyField b.name && truthyField b.email && truthyField b.password &&
        truthyField b.role) = true
    · have hrb : (b.role.getD "" == "job_seeker" || b.role.getD "" == "employer") = false := by
        simp [hr, hne1, hne2]
      simp [registerPOST, hc, hrb, regStatus]
    · rw [Bool.not_eq_true] at hc
      simp [registerPOST, hc, regStatus]
  · intro hashFn newId now users saveOk b e he hbad
    by_cases hc : (truthyField b.name && truthyField b.email && truthyField b.password &&
        truthyField b.role) = true
    · by_cases hrb : (b.role.getD "" == "job_seeker" || b.role.getD "" == "employer") = true
      · rw [Bool.and_eq_true, Bool.and_eq_true, Bool.and_eq_true] at hc
        obtain ⟨⟨⟨hc1, hc2⟩, hc3⟩, hc4⟩ := hc
        rw [he] at hc2
        simp [registerPOST, hc1, hc2, hc3, hc4, hrb, he, hbad, regStatus]
      · rw [Bool.not_eq_true] at hrb
        simp [registerPOST, hc, hrb, regStatus]
    · rw [Bool.not_eq_true] at hc
      simp [registerPOST, hc, regStatus]
  · intro hashFn newId now users saveOk b p hp hlen
    by_cases hc : (truthyField b.name && truthyField b.email && truthyField b.password &&
        truthyField b.role) = true
    · by_cases hrb : (b.role.getD "" == "job_seeker" || b.role.getD "" == "employer") = true
      · by_cases he : emailRegexTest (b.email.getD "") = true
        · have hlt : (b.password.getD "").length < 6 := by
            rw [hp, Option.getD_some]
            omega
          simp [registerPOST, hc, hrb, he, hlt, regStatus]
        · rw [Bool.not_eq_true] at he
          simp [registerPOST, hc, hrb, he, regStatus]
      · rw [Bool.not_eq_true] at hrb
        simp [registerPOST, hc, hrb, regStatus]
    · rw [Bool.not_eq_true] at hc
      simp [registerPOST, hc, regStatus]
  · intro hashFn newId now users n e p r hn he hrole hlen hnodup
    have he0 : e ≠ "" := by
      intro h0
      rw [h0] at he
      exact absurd he (by decide)
    have hp0 : p ≠ "" := by
      intro h0
      rw [h0] at hlen
      simp at hlen
    have hr0 : r ≠ "" := by
      rcases hrole with rfl | rfl <;> decide
    have hc : (truthyField (some n) && truthyField (some e) && truthyField (some p) &&
        truthyField (some r)) = true := by
      simp [truthyField, hn, he0, hp0, hr0]
    have hrb : ((r : String) == "job_seeker" || r == "employer") = true := by
      rcases hrole with rfl | rfl <;> decide
    have hlt : ¬((p : String).length < 6) := by omega
    have hfind : users.find? (fun user => user.email == e) = none :=
      List.find?_eq_none.mpr (fun x hx => by simp [hnodup x hx])
    simp [registerPOST, hc, hrb, he, hlt, createUser, hfind, regStatus]
  · intro hashFn newId now users saveOk n e p r hn he hrole hlen hdup
    have he0 : e ≠ "" := by
      intro h0
      rw [h0] at he
      exact absurd he (by decide)
    have hp0 : p ≠ "" := by
      intro h0
      rw [h0] at hlen
      simp at hlen
    have hr0 : r ≠ "" := by
      rcases hrole with rfl | rfl <;> decide
    have hc : (truthyField (some n) && truthyField (some e) && truthyField (some p) &&
        truthyField (some r)) = true := by
      simp [truthyField, hn, he0, hp0, hr0]
    have hrb : ((r : String) == "job_seeker" || r == "employer") = true := by
      rcases hrole with rfl | rfl <;> decide
    have hlt : ¬((p : String).length < 6) := by omega
    obtain ⟨w, hw, hwe⟩ := hdup
    have hsome : (users.find? (fun user => user.email == e)).isSome :=
      List.find?_isSome.mpr ⟨w, hw, by simp [hwe]⟩
    obtain ⟨v, hv⟩ := Option.isSome_iff_exists.mp hsome
    simp [registerPOST, hc, hrb, he, hlt, createUser, hv, regStatus]
  · intro hashFn newId now users body saveOk
    have h : ∀ resp : RegResponse, regStatus resp ∈ ([400, 409, 201, 500] : List Nat) := by
      intro resp
      cases resp <;> simp [regStatus]
    exact h _

theorem registerPOST_status_spec_witness :
    regStatus (registerPOST (fun s => s) "i4" 0 []
      (some ⟨none, some "a@b.co", some "secret1", some "employer"⟩) true).2 = 400 ∧
    regStatus (registerPOST (fun s => s) "i4" 0 []
      (some ⟨some "N", some "a@b.co", some "secret1", some "admin"⟩) true).2 = 400 ∧
    regStatus (registerPOST (fun s => s) "i4" 0 []
      (some ⟨some "N", some "not-an-email", some "secret1", some "employer"⟩) true).2 = 400 ∧
    regStatus (registerPOST (fun s => s) "i4" 0 []
      (some ⟨some "N", some "a@b.co", some "12345", some "employer"⟩) true).2 = 400 ∧
    (registerPOST (fun s => s) "i4" 0 []
      (some ⟨some "N", some "a@b.co", some "123456", some "employer"⟩) true).2 =
      RegResponse.created ⟨"i4", "N", "a@b.co", "employer"⟩ ∧
    (registerPOST (fun s => s) "i4" 0 [⟨"j", "M", "a@b.co", "h", "employer", 3, 3⟩]
      (some ⟨some "N", some "a@b.co", some "123456", some "employer"⟩) true).2 =
      RegResponse.conflict ∧
    regStatus (registerPOST (fun s => s) "i4" 0 [] none true).2 ∈ ([400, 409, 201, 500] : List Nat) := by
  have h := registerPOST_status_spec
  exact ⟨h.1 _ _ _ _ _ _ (Or.inl rfl),
    h.2.1 _ _ _ _ _ _ "admin" rfl (by decide) (by decide),
    h.2.2.1 _ _ _ _ _ _ "not-an-email" rfl (by decide),
    h.2.2.2.1 _ _ _ _ _ _ "12345" rfl (by decide),
    h.2.2.2.2.1 _ _ _ _ "N" "a@b.co" "123456" "employer" (by decide) (by decide)
      (Or.inr rfl) (by decide) (by simp),
    h.2.2.2.2.2.1 _ _ _ _ _ "N" "a@b.co" "123456" "employer" (by decide) (by decide)
      (Or.inr rfl) (by decide) ⟨_, List.mem_singleton_self _, rfl⟩,
    h.2.2.2.2.2.2 _ _ _ _ _ _⟩
